import Mathlib

/-!
Verification of the XLR8SPISRAM control-register facade (`src/XLR8SPISRAM.h`).

The library manipulates a single 8-bit memory-mapped control register
(`XLR8SPISRAMMEMCR`, at I/O address 0xF0) through read-modify-write
one-liners.  We embed the register value as a natural number below 256 and
each mutator as a function from the prior register value to the stored
value, translated directly from the C++ source:

  byte_mode:                 MEMCR &= 0x0F
  page_mode:                 MEMCR = (MEMCR & 0x0F) | 0x20
  sequential_mode:           MEMCR = (MEMCR & 0x0F) | 0x10
  clock_divider(d):          MEMCR = (MEMCR & 0x31) | ((uint8_t)(d << 1))
  extended_address_enable:   MEMCR |= 0x01
  extended_address_disable:  MEMCR &= 0x3E

`(uint8_t)(d << 1)` truncates the shifted code to 8 bits, which we render
as `(d <<< 1) % 256`.
-/

namespace XLR8SPISRAM

/-- Device I/O address of the control register (`_SFR_MEM8(0xF0)`). -/
def XLR8SPISRAMMEMCR_ADDR : Nat := 0xF0

/-- SPI clock division code `SPI_CLOCK_DIV4` from the source header. -/
def SPI_CLOCK_DIV4 : Nat := 0x00

/-- SPI clock division code `SPI_CLOCK_DIV16` from the source header. -/
def SPI_CLOCK_DIV16 : Nat := 0x01

/-- SPI clock division code `SPI_CLOCK_DIV64` from the source header. -/
def SPI_CLOCK_DIV64 : Nat := 0x02

/-- SPI clock division code `SPI_CLOCK_DIV128` from the source header. -/
def SPI_CLOCK_DIV128 : Nat := 0x03

/-- SPI clock division code `SPI_CLOCK_DIV2` from the source header. -/
def SPI_CLOCK_DIV2 : Nat := 0x04

/-- SPI clock division code `SPI_CLOCK_DIV8` from the source header. -/
def SPI_CLOCK_DIV8 : Nat := 0x05

/-- SPI clock division code `SPI_CLOCK_DIV32` from the source header. -/
def SPI_CLOCK_DIV32 : Nat := 0x06

/-- Embedding of `XLR8SPISRAM_Class::byte_mode`: `XLR8SPISRAMMEMCR &= 0x0F;`. -/
def byte_mode (v : Nat) : Nat := v &&& 0x0F

/-- Embedding of `XLR8SPISRAM_Class::page_mode`:
`XLR8SPISRAMMEMCR = (XLR8SPISRAMMEMCR & 0x0F) | 0x20;`. -/
def page_mode (v : Nat) : Nat := (v &&& 0x0F) ||| 0x20

/-- Embedding of `XLR8SPISRAM_Class::sequential_mode`:
`XLR8SPISRAMMEMCR = (XLR8SPISRAMMEMCR & 0x0F) | 0x10;`. -/
def sequential_mode (v : Nat) : Nat := (v &&& 0x0F) ||| 0x10

/-- Embedding of `XLR8SPISRAM_Class::clock_divider`:
`XLR8SPISRAMMEMCR = (XLR8SPISRAMMEMCR & 0x31) | ((uint8_t)(divider << 1));`.
The cast back to `uint8_t` after the shift is the `% 256`. -/
def clock_divider (v divider : Nat) : Nat :=
  (v &&& 0x31) ||| ((divider <<< 1) % 256)

/-- Embedding of `XLR8SPISRAM_Class::extended_address_enable`:
`XLR8SPISRAMMEMCR |= 0x01;`. -/
def extended_address_enable (v : Nat) : Nat := v ||| 0x01

/-- Embedding of `XLR8SPISRAM_Class::extended_address_disable`:
`XLR8SPISRAMMEMCR &= 0x3E;`. -/
def extended_address_disable (v : Nat) : Nat := v &&& 0x3E

set_option maxRecDepth 100000
set_option maxHeartbeats 1000000

/-- Bitwise AND distributes over bitwise OR on the left argument. -/
theorem land_lor_distrib_right (a b m : Nat) :
    (a ||| b) &&& m = (a &&& m) ||| (b &&& m) := by
  apply Nat.eq_of_testBit_eq
  intro i
  simp only [Nat.testBit_land, Nat.testBit_lor]
  cases a.testBit i <;> cases b.testBit i <;> cases m.testBit i <;> rfl

/-- Right shift distributes over bitwise OR. -/
theorem lor_shiftRight_distrib (a b n : Nat) :
    (a ||| b) >>> n = (a >>> n) ||| (b >>> n) := by
  apply Nat.eq_of_testBit_eq
  intro i
  simp only [Nat.testBit_shiftRight, Nat.testBit_lor]

/-- Right shift distributes over bitwise AND. -/
theorem land_shiftRight_distrib (a m n : Nat) :
    (a &&& m) >>> n = (a >>> n) &&& (m >>> n) := by
  apply Nat.eq_of_testBit_eq
  intro i
  simp only [Nat.testBit_shiftRight, Nat.testBit_land]

/-- OR-ing a masked value back into the value is absorption. -/
theorem land_lor_absorb (a m : Nat) : (a &&& m) ||| a = a := by
  apply Nat.eq_of_testBit_eq
  intro i
  simp only [Nat.testBit_land, Nat.testBit_lor]
  cases a.testBit i <;> cases m.testBit i <;> rfl

/-- Masking twice with the same mask is the same as masking once. -/
theorem land_land_self (a m : Nat) : (a &&& m) &&& m = a &&& m := by
  apply Nat.eq_of_testBit_eq
  intro i
  simp only [Nat.testBit_land]
  cases a.testBit i <;> cases m.testBit i <;> rfl

/-- OR-ing the same constant twice is the same as OR-ing it once. -/
theorem lor_lor_self (a m : Nat) : (a ||| m) ||| m = a ||| m := by
  apply Nat.eq_of_testBit_eq
  intro i
  simp only [Nat.testBit_lor]
  cases a.testBit i <;> cases m.testBit i <;> rfl

/-- Bitwise OR of two values below a power of two stays below it. -/
theorem lor_lt_two_pow (n a b : Nat) (ha : a < 2 ^ n) (hb : b < 2 ^ n) :
    a ||| b < 2 ^ n := by
  have h := land_lor_distrib_right a b (2 ^ n - 1)
  rw [Nat.and_pow_two_sub_one_of_lt_two_pow ha,
    Nat.and_pow_two_sub_one_of_lt_two_pow hb] at h
  rw [Nat.and_pow_two_sub_one_eq_mod] at h
  rw [← h]
  exact Nat.mod_lt _ (Nat.two_pow_pos n)

/-- Shifting left by one doubles a natural number. -/
theorem shiftLeft_one_eq_double (c : Nat) : c <<< 1 = 2 * c := by
  rw [Nat.shiftLeft_eq]
  ring

/-- The byte actually stored into the clock field, `(uint8_t)(c << 1)`,
is always even. -/
theorem shifted_code_even (c : Nat) : ((c <<< 1) % 256) &&& 1 = 0 := by
  rw [Nat.and_one_is_mod, shiftLeft_one_eq_double]
  omega

/-- Claim C1: for every prior 8-bit register value `v`, each mode setter
yields a byte whose bits 7:4 equal the mode code alone (so bits 7:6 are
zero) and whose bits 3:0 equal `v &&& 0x0F`: `byte_mode` gives
`v &&& 0x0F` (bits 5:4 = 00), `page_mode` gives `(v &&& 0x0F) ||| 0x20`
(bits 5:4 = 10), `sequential_mode` gives `(v &&& 0x0F) ||| 0x10`
(bits 5:4 = 01). -/
theorem mode_setters_spec (v : Fin 256) :
    byte_mode v.val = v.val &&& 0x0F ∧
    byte_mode v.val >>> 4 = 0x0 ∧
    (byte_mode v.val >>> 4) &&& 0x03 = 0x0 ∧
    byte_mode v.val &&& 0x0F = v.val &&& 0x0F ∧
    page_mode v.val = (v.val &&& 0x0F) ||| 0x20 ∧
    page_mode v.val >>> 4 = 0x2 ∧
    (page_mode v.val >>> 4) &&& 0x03 = 0x2 ∧
    page_mode v.val &&& 0x0F = v.val &&& 0x0F ∧
    sequential_mode v.val = (v.val &&& 0x0F) ||| 0x10 ∧
    sequential_mode v.val >>> 4 = 0x1 ∧
    (sequential_mode v.val >>> 4) &&& 0x03 = 0x1 ∧
    sequential_mode v.val &&& 0x0F = v.val &&& 0x0F := by
  revert v; decide

/-- Claim C2: for every prior 8-bit register value `v` and every code `c`
in 0..7, `clock_divider` stores `(v &&& 0x31) ||| (c <<< 1)`: bits 3:1 of
the result equal `c`, bits 5:4 and bit 0 equal their values in `v`, and
bits 7:6 are zero. -/
theorem clock_divider_in_range_spec (v : Fin 256) (c : Fin 8) :
    clock_divider v.val c.val = (v.val &&& 0x31) ||| (c.val <<< 1) ∧
    (clock_divider v.val c.val >>> 1) &&& 0x07 = c.val ∧
    (clock_divider v.val c.val >>> 4) &&& 0x03 = (v.val >>> 4) &&& 0x03 ∧
    clock_divider v.val c.val &&& 0x01 = v.val &&& 0x01 ∧
    clock_divider v.val c.val >>> 6 = 0 := by
  revert v c; decide

/-- Counterexample to claim C3 as stated: at prior value `v = 0` and code
`c = 8`, `clock_divider` stores `0x10` (the high bit of the code spills
into the mode field), whereas masking the code to 3 bits before shifting
would store `0x00`; so the result does not equal
`(v &&& 0x31) ||| ((c &&& 0x07) <<< 1)` for `c > 7`. -/
theorem clock_divider_mask_counterexample :
    clock_divider 0 8 = 0x10 ∧
    (0 &&& 0x31) ||| ((8 &&& 0x07) <<< 1) = 0x00 ∧
    clock_divider 0 8 ≠ (0 &&& 0x31) ||| ((8 &&& 0x07) <<< 1) := by
  decide

/-- Claim C3 (amended): only for codes `c` in 0..7 does the stored byte
equal `(v &&& 0x31) ||| ((c &&& 0x07) <<< 1)`; the clock-select field is
written as a 3-bit value exactly because such a code already fits in 3
bits. Higher bits of a larger code are not discarded (see C4). -/
theorem clock_divider_codes_masked_spec (v : Fin 256) (c : Fin 8) :
    clock_divider v.val c.val = (v.val &&& 0x31) ||| ((c.val &&& 0x07) <<< 1) ∧
    (clock_divider v.val c.val >>> 1) &&& 0x07 = c.val &&& 0x07 := by
  revert v c; decide

/-- Claim C4: `clock_divider` does not mask its argument: for every prior
8-bit value `v` and every 8-bit code `c`, the stored byte equals
`(v &&& 0x31) ||| ((c <<< 1) % 256)`. Bits 7:4 of the result are the
surviving mode bits of `v` OR-ed with bits 6:3 of `c` (bit 7 of `c` is
shifted out entirely by the truncation to 8 bits, hence the `&&& 0x7F`),
so any bit of `c` at position 3..6 lands at position 4..7. In particular,
`clock_divider 0 8` has bit 4 set although bit 4 of the prior value 0 was
clear. -/
theorem clock_divider_unmasked_spec (v c : Fin 256) :
    clock_divider v.val c.val = (v.val &&& 0x31) ||| ((c.val <<< 1) % 256) ∧
    clock_divider v.val c.val >>> 4
      = ((v.val >>> 4) &&& 0x03) ||| ((c.val &&& 0x7F) >>> 3) ∧
    clock_divider v.val c.val < 256 ∧
    (clock_divider 0x00 0x08 >>> 4) &&& 0x01 = 1 ∧
    ((0x00 : Nat) >>> 4) &&& 0x01 = 0 := by
  refine ⟨rfl, ?_, ?_, by decide, by decide⟩
  · show ((v.val &&& 49) ||| ((c.val <<< 1) % 256)) >>> 4
        = ((v.val >>> 4) &&& 3) ||| ((c.val &&& 127) >>> 3)
    rw [lor_shiftRight_distrib, land_shiftRight_distrib]
    have h49 : (49 : Nat) >>> 4 = 3 := rfl
    rw [h49]
    have hc : ((c.val <<< 1) % 256) >>> 4 = (c.val &&& 127) >>> 3 := by
      have h127 : (127 : Nat) = 2 ^ 7 - 1 := by norm_num
      rw [h127, Nat.and_pow_two_sub_one_eq_mod, shiftLeft_one_eq_double,
        Nat.shiftRight_eq_div_pow, Nat.shiftRight_eq_div_pow]
      have e4 : (2 : Nat) ^ 4 = 16 := by norm_num
      have e3 : (2 : Nat) ^ 3 = 8 := by norm_num
      have e7 : (2 : Nat) ^ 7 = 128 := by norm_num
      rw [e4, e3, e7]
      omega
    rw [hc]
  · show (v.val &&& 49) ||| ((c.val <<< 1) % 256) < 256
    have hx : v.val &&& 49 < 2 ^ 8 :=
      Nat.lt_of_le_of_lt Nat.and_le_right (by norm_num)
    have hd : (c.val <<< 1) % 256 < 2 ^ 8 := by
      have h := Nat.mod_lt (c.val <<< 1) (show (0 : Nat) < 256 by norm_num)
      norm_num
      exact h
    have h := lor_lt_two_pow 8 (v.val &&& 49) ((c.val <<< 1) % 256) hx hd
    norm_num at h
    exact h

/-- Claim C5: for every prior 8-bit register value `v`,
`extended_address_disable` stores exactly `v &&& 0x3E`: bit 0 of the
result is 0, bits 5:1 are bitwise unchanged from `v`, and bits 7:6 are
zero. -/
theorem extended_address_disable_spec (v : Fin 256) :
    extended_address_disable v.val = v.val &&& 0x3E ∧
    extended_address_disable v.val &&& 0x01 = 0 ∧
    (extended_address_disable v.val >>> 1) &&& 0x1F = (v.val >>> 1) &&& 0x1F ∧
    extended_address_disable v.val >>> 6 = 0 := by
  revert v; decide

/-- Claim C6: for every prior 8-bit register value `v`, after
`extended_address_enable` bit 0 of the register is 1 and bits 7:1 are
bitwise unchanged from `v` (reserved bits 7:6 included); the stored byte
equals `v ||| 0x01`. -/
theorem extended_address_enable_spec (v : Fin 256) :
    extended_address_enable v.val = v.val ||| 0x01 ∧
    extended_address_enable v.val &&& 0x01 = 1 ∧
    extended_address_enable v.val >>> 1 = v.val >>> 1 := by
  revert v; decide

/-- Claim C7: every mutator is idempotent: for every prior 8-bit register
value `v` (and, for `clock_divider`, every 8-bit code `c`), calling the
same mutator twice in a row with the same argument leaves the register in
the same state as calling it once. -/
theorem mutators_idempotent (v c : Fin 256) :
    byte_mode (byte_mode v.val) = byte_mode v.val ∧
    page_mode (page_mode v.val) = page_mode v.val ∧
    sequential_mode (sequential_mode v.val) = sequential_mode v.val ∧
    clock_divider (clock_divider v.val c.val) c.val = clock_divider v.val c.val ∧
    extended_address_enable (extended_address_enable v.val)
      = extended_address_enable v.val ∧
    extended_address_disable (extended_address_disable v.val)
      = extended_address_disable v.val := by
  refine ⟨?_, ?_, ?_, ?_, ?_, ?_⟩
  · exact land_land_self v.val 15
  · show (((v.val &&& 15) ||| 32) &&& 15) ||| 32 = (v.val &&& 15) ||| 32
    rw [land_lor_distrib_right, land_land_self]
    have h : (32 : Nat) &&& 15 = 0 := rfl
    rw [h, Nat.or_zero]
  · show (((v.val &&& 15) ||| 16) &&& 15) ||| 16 = (v.val &&& 15) ||| 16
    rw [land_lor_distrib_right, land_land_self]
    have h : (16 : Nat) &&& 15 = 0 := rfl
    rw [h, Nat.or_zero]
  · show (((v.val &&& 49) ||| ((c.val <<< 1) % 256)) &&& 49)
          ||| ((c.val <<< 1) % 256)
        = (v.val &&& 49) ||| ((c.val <<< 1) % 256)
    rw [land_lor_distrib_right, land_land_self, Nat.lor_assoc, land_lor_absorb]
  · exact lor_lor_self v.val 1
  · exact land_land_self v.val 62

/-- Claim C8: starting from register value 0x00, the sequence
`sequential_mode(); clock_divider(4); extended_address_enable();` leaves
the register equal to 0x19: mode bits 5:4 = 01, clock bits 3:1 = 100
(code 4 = `SPI_CLOCK_DIV2`), extended-address bit 0 = 1. -/
theorem scenario_s1 :
    extended_address_enable (clock_divider (sequential_mode 0x00) 4) = 0x19 ∧
    SPI_CLOCK_DIV2 = 4 ∧
    ((0x19 : Nat) >>> 4) &&& 0x03 = 0x1 ∧
    ((0x19 : Nat) >>> 1) &&& 0x07 = 0x4 ∧
    (0x19 : Nat) &&& 0x01 = 1 := by
  decide

/-- Claim C9: the extended-address bit is independent of mode and clock
selection: for every prior 8-bit value `v`, the three mode setters leave
bit 0 unchanged, and `clock_divider` leaves bit 0 unchanged for every
8-bit code `c`; conversely `extended_address_enable` and
`extended_address_disable` leave bits 5:1 (the mode and clock fields)
unchanged. -/
theorem extended_address_bit_independent (v c : Fin 256) :
    byte_mode v.val &&& 0x01 = v.val &&& 0x01 ∧
    page_mode v.val &&& 0x01 = v.val &&& 0x01 ∧
    sequential_mode v.val &&& 0x01 = v.val &&& 0x01 ∧
    clock_divider v.val c.val &&& 0x01 = v.val &&& 0x01 ∧
    (extended_address_enable v.val >>> 1) &&& 0x1F = (v.val >>> 1) &&& 0x1F ∧
    (extended_address_disable v.val >>> 1) &&& 0x1F = (v.val >>> 1) &&& 0x1F := by
  refine ⟨?_, ?_, ?_, ?_, ?_, ?_⟩
  · show (v.val &&& 15) &&& 1 = v.val &&& 1
    rw [Nat.land_assoc]
    have h15 : (15 : Nat) &&& 1 = 1 := rfl
    rw [h15]
  · show ((v.val &&& 15) ||| 32) &&& 1 = v.val &&& 1
    rw [land_lor_distrib_right]
    have h : (32 : Nat) &&& 1 = 0 := rfl
    rw [h, Nat.or_zero, Nat.land_assoc]
    have h15 : (15 : Nat) &&& 1 = 1 := rfl
    rw [h15]
  · show ((v.val &&& 15) ||| 16) &&& 1 = v.val &&& 1
    rw [land_lor_distrib_right]
    have h : (16 : Nat) &&& 1 = 0 := rfl
    rw [h, Nat.or_zero, Nat.land_assoc]
    have h15 : (15 : Nat) &&& 1 = 1 := rfl
    rw [h15]
  · show ((v.val &&& 49) ||| ((c.val <<< 1) % 256)) &&& 1 = v.val &&& 1
    rw [land_lor_distrib_right, shifted_code_even, Nat.or_zero, Nat.land_assoc]
    have h49 : (49 : Nat) &&& 1 = 1 := rfl
    rw [h49]
  · show ((v.val ||| 1) >>> 1) &&& 31 = (v.val >>> 1) &&& 31
    rw [lor_shiftRight_distrib]
    have h : (1 : Nat) >>> 1 = 0 := rfl
    rw [h, Nat.or_zero]
  · show ((v.val &&& 62) >>> 1) &&& 31 = (v.val >>> 1) &&& 31
    rw [land_shiftRight_distrib]
    have h : (62 : Nat) >>> 1 = 31 := rfl
    rw [h, Nat.land_assoc]
    have h31 : (31 : Nat) &&& 31 = 31 := rfl
    rw [h31]

/-- Claim C10: `extended_address_enable` commutes with each of the other
mutators: for every prior 8-bit value `v`, running it before
`byte_mode`, `page_mode`, `sequential_mode`, or `clock_divider c` (for
any 8-bit code `c`) yields the same final register value as running it
after. -/
theorem extended_address_enable_commutes (v c : Fin 256) :
    byte_mode (extended_address_enable v.val)
      = extended_address_enable (byte_mode v.val) ∧
    page_mode (extended_address_enable v.val)
      = extended_address_enable (page_mode v.val) ∧
    sequential_mode (extended_address_enable v.val)
      = extended_address_enable (sequential_mode v.val) ∧
    clock_divider (extended_address_enable v.val) c.val
      = extended_address_enable (clock_divider v.val c.val) := by
  refine ⟨?_, ?_, ?_, ?_⟩
  · show (v.val ||| 1) &&& 15 = (v.val &&& 15) ||| 1
    rw [land_lor_distrib_right]
    have h1 : (1 : Nat) &&& 15 = 1 := rfl
    rw [h1]
  · show ((v.val ||| 1) &&& 15) ||| 32 = ((v.val &&& 15) ||| 32) ||| 1
    rw [land_lor_distrib_right]
    have h1 : (1 : Nat) &&& 15 = 1 := rfl
    rw [h1, Nat.lor_assoc, Nat.lor_assoc, Nat.lor_comm 1 32]
  · show ((v.val ||| 1) &&& 15) ||| 16 = ((v.val &&& 15) ||| 16) ||| 1
    rw [land_lor_distrib_right]
    have h1 : (1 : Nat) &&& 15 = 1 := rfl
    rw [h1, Nat.lor_assoc, Nat.lor_assoc, Nat.lor_comm 1 16]
  · show ((v.val ||| 1) &&& 49) ||| ((c.val <<< 1) % 256)
        = (((v.val &&& 49) ||| ((c.val <<< 1) % 256)) ||| 1)
    rw [land_lor_distrib_right]
    have h1 : (1 : Nat) &&& 49 = 1 := rfl
    rw [h1, Nat.lor_assoc, Nat.lor_assoc, Nat.lor_comm 1 ((c.val <<< 1) % 256)]

end XLR8SPISRAM
